import Mathlib

/-!
Shallow embedding of the Quant prediction-market trading bot
(`src/quant/bot/...`) and verification of the specification's claims
about it.  Python floats are embedded as exact rationals; all arithmetic
in this development is exact.
-/

namespace Quant

/-! ## Configuration constants, from `bot/config.py` (default values) -/

def MIN_EDGE : ℚ := 1/20

def KELLY_FRACTION : ℚ := 1/4

def MAX_POSITION_PCT : ℚ := 1/20

def MAX_OPEN_POSITIONS : ℕ := 20

def LEARNING_BATCH_SIZE : ℕ := 10

def MODEL_KILL_BRIER : ℚ := 7/25

def DOMAIN_WEIGHT_GOOD_BRIER : ℚ := 3/20

def DOMAIN_WEIGHT_BAD_BRIER : ℚ := 1/4

def ENTROPY_THRESHOLD_DEFAULT : ℚ := 4

def ENTROPY_HIGH_TIER : ℚ := ENTROPY_THRESHOLD_DEFAULT

/-- `RANDOM_BASELINE_BRIER` from `bot/learning/domain_calibrator.py`. -/
def RANDOM_BASELINE_BRIER : ℚ := 1/4

/-! ## Kelly sizing, from `bot/trading/kelly.py` -/

/-- `kelly_fraction` from `bot/trading/kelly.py`.  The Python default
arguments `fractional=KELLY_FRACTION` and `max_pct=MAX_POSITION_PCT` are
passed explicitly by every use in this file. -/
def kelly_fraction (edge market_price : ℚ) (side : String)
    (fractional max_pct : ℚ) : ℚ :=
  let price := if side = "YES" then market_price else 1 - market_price
  if price ≤ 0 ∨ 1 ≤ price then 0
  else
    let full_kelly := edge / (1 - price)
    let fk := full_kelly * fractional
    max 0 (min fk max_pct)

/-- Round-half-to-even on rationals (idealisation of Python's `round`,
which is banker's rounding; the decimal/binary representation subtleties
of `float` are not modelled). -/
def round_half_even (q : ℚ) : ℤ :=
  if q - Int.floor q = 1/2 then
    (if 2 ∣ Int.floor q then Int.floor q else Int.ceil q)
  else round q

/-- Python's `round(x, 2)` on rationals. -/
def round_to_2 (q : ℚ) : ℚ := (round_half_even (q * 100) : ℚ) / 100

/-- `size_from_fraction` from `bot/trading/kelly.py`. -/
def size_from_fraction (fraction bankroll price : ℚ) : ℚ :=
  if price ≤ 0 then 0
  else max 1 (round_to_2 (bankroll * fraction / price))

/-! ## Edge filter, from `bot/trading/edge.py` -/

def compute_edge (ensemble_prob market_price : ℚ) : ℚ :=
  ensemble_prob - market_price

/-- `best_side_and_edge` from `bot/trading/edge.py`. -/
def best_side_and_edge (ensemble_prob market_price : ℚ) : String × ℚ :=
  let yes_edge := compute_edge ensemble_prob market_price
  if 0 ≤ yes_edge then ("YES", yes_edge) else ("NO", -yes_edge)

/-- `is_tradeable` from `bot/trading/edge.py`.  The numeric
interpolations inside Python's reason strings are abbreviated to their
fixed text; no claim concerns the message contents, only the Boolean. -/
def is_tradeable (ensemble_prob market_price : ℚ) (confidence_tier : String)
    (domain_weight min_edge : ℚ) (max_open_positions current_open : ℕ) :
    Bool × String :=
  let edge := (best_side_and_edge ensemble_prob market_price).2
  if max_open_positions ≤ current_open then
    (false, "max open positions reached")
  else if edge < min_edge then (false, "edge below min")
  else if confidence_tier ≠ "high" then
    (false, "confidence tier not high")
  else if domain_weight < 1/2 then (false, "domain weight below 0.5")
  else (true, "")

/-! ## Store state and executor, from `bot/db/store.py`,
`bot/trading/portfolio.py` and `bot/trading/executor.py` -/

/-- A market row as needed by the executor (`bot/exchanges/base.py`
dataclass `Market`; `volume_usd`, `close_time` and `domain` are unused by
the embedded trading operations and omitted). -/
structure MarketRec where
  id : String
  exchange : String
  question : String
  market_price : ℚ
  deriving DecidableEq, Repr

/-- The `resolved` status of a market row, as consulted by
`count_open_positions`. -/
structure MarketStatus where
  id : String
  resolved : Bool
  deriving DecidableEq, Repr

/-- A row of the `trades` table (`insert_trade` in `bot/db/store.py`). -/
structure TradeRow where
  market_id : String
  forecast_id : ℕ
  exchange : String
  side : String
  size_units : ℚ
  price : ℚ
  kelly_fraction : ℚ
  edge : ℚ
  is_paper : ℕ
  deriving DecidableEq, Repr

/-- The part of the SQLite store read and written by the trading path:
markets (resolution status), trades, and the portfolio singleton. -/
structure DBState where
  markets : List MarketStatus
  trades : List TradeRow
  cash : ℚ
  total_value : ℚ
  deriving DecidableEq, Repr

/-- `count_open_positions` from `bot/db/store.py`: count of distinct
market ids among trades joined to unresolved markets. -/
def count_open_positions (s : DBState) : ℕ :=
  (((s.trades.filter (fun t =>
      s.markets.any (fun m => m.id = t.market_id ∧ m.resolved = false))).map
    (fun t => t.market_id)).dedup).length

/-- `has_position` from `bot/db/store.py`. -/
def has_position (s : DBState) (market_id : String) : Bool :=
  s.trades.any (fun t => t.market_id = market_id)

/-- `insert_trade` from `bot/db/store.py`; the SQLite `lastrowid` is
modelled as the running count of trade rows. -/
def insert_trade (s : DBState) (t : TradeRow) : DBState × ℕ :=
  ({s with trades := s.trades ++ [t]}, s.trades.length + 1)

/-- `deduct_cash` from `bot/trading/portfolio.py`. -/
def deduct_cash (s : DBState) (amount : ℚ) : DBState :=
  {s with cash := max 0 (s.cash - amount)}

/-- `TradeIntent` from `bot/trading/executor.py`. -/
structure TradeIntent where
  market : MarketRec
  forecast_id : ℕ
  ensemble_prob : ℚ
  confidence_tier : String
  domain_weight : ℚ
  deriving DecidableEq, Repr

/-- `maybe_trade` from `bot/trading/executor.py`.  The external exchange
`place_order` call on the live path is modelled by the Boolean oracle
`live_order_ok` (success/exception); everything else is as in the
source. -/
def maybe_trade (intent : TradeIntent) (paper_mode live_order_ok : Bool)
    (s : DBState) : Option ℕ × DBState :=
  let market := intent.market
  let open_count := count_open_positions s
  let se := best_side_and_edge intent.ensemble_prob market.market_price
  let side := se.1
  let edge_val := se.2
  let tr := is_tradeable intent.ensemble_prob market.market_price
    intent.confidence_tier intent.domain_weight MIN_EDGE
    MAX_OPEN_POSITIONS open_count
  if tr.1 = false then (none, s)
  else if has_position s market.id then (none, s)
  else
    let fill_price := if side = "YES" then market.market_price
      else 1 - market.market_price
    let frac := kelly_fraction edge_val market.market_price side
      KELLY_FRACTION MAX_POSITION_PCT
    let size := size_from_fraction frac s.cash fill_price
    let cost := size * fill_price
    if s.cash < cost then (none, s)
    else
      let row : TradeRow :=
        ⟨market.id, intent.forecast_id, market.exchange, side, size,
          fill_price, frac, edge_val, if paper_mode then 1 else 0⟩
      if paper_mode then
        let r := insert_trade s row
        (some r.2, deduct_cash r.1 cost)
      else if live_order_ok then
        let r := insert_trade s row
        (some r.2, deduct_cash r.1 cost)
      else (none, s)

/-! ## Claim C2: a tradeable verdict implies all five filter conditions -/

/-- C2: if the pre-trade decision filter of `maybe_trade` gives a
`tradeable=true` verdict (`is_tradeable` true and no prior position),
then the edge magnitude is at least `MIN_EDGE`, the tier is `high`, the
domain weight is at least 0.5, the open-position count is strictly below
`MAX_OPEN_POSITIONS`, and no trade row exists on that market id. -/
theorem C2_tradeable_verdict_implies_filters
    (s : DBState) (ensemble_prob market_price domain_weight : ℚ)
    (confidence_tier market_id : String)
    (h1 : (is_tradeable ensemble_prob market_price confidence_tier
      domain_weight MIN_EDGE MAX_OPEN_POSITIONS
      (count_open_positions s)).1 = true)
    (h2 : has_position s market_id = false) :
    MIN_EDGE ≤ (best_side_and_edge ensemble_prob market_price).2 ∧
    confidence_tier = "high" ∧
    (1:ℚ)/2 ≤ domain_weight ∧
    count_open_positions s < MAX_OPEN_POSITIONS ∧
    ¬ ∃ t ∈ s.trades, t.market_id = market_id := by
  simp only [is_tradeable] at h1
  split_ifs at h1 with ha hb hc hd
  all_goals simp at h1
  push_neg at ha hb hc hd
  refine ⟨hb, hc, hd, ha, ?_⟩
  simp only [has_position, List.any_eq_false, decide_eq_true_eq] at h2
  rintro ⟨t, ht, hmid⟩
  exact h2 t ht hmid

/-- Witness for C2 at a concrete tradeable input. -/
theorem C2_tradeable_verdict_implies_filters_witness :
    MIN_EDGE ≤ (best_side_and_edge (3/4) (2/5)).2 ∧
    "high" = "high" ∧
    (1:ℚ)/2 ≤ 1 ∧
    count_open_positions ⟨[], [], 10000, 10000⟩ < MAX_OPEN_POSITIONS ∧
    ¬ ∃ t ∈ (⟨[], [], 10000, 10000⟩ : DBState).trades, t.market_id = "m" :=
  C2_tradeable_verdict_implies_filters ⟨[], [], 10000, 10000⟩ (3/4) (2/5) 1
    "high" "m"
    (by norm_num [is_tradeable, best_side_and_edge, compute_edge,
      count_open_positions, MIN_EDGE, MAX_OPEN_POSITIONS])
    (by simp [has_position])

/-! ## Claim C3: degenerate market price -/

/-- The concrete failing configuration for C3: a market priced exactly
0, an ensemble probability of 3/4, tier `high`, domain weight 1, no
open positions, no prior trade, paper mode, cash 10000. -/
def c3market : MarketRec := ⟨"kalshi:x", "kalshi", "q", 0⟩

def c3intent : TradeIntent := ⟨c3market, 1, 3/4, "high", 1⟩

def c3state : DBState := ⟨[⟨"kalshi:x", false⟩], [], 10000, 10000⟩

/-- C3 (code bug): at `market_price = 0` the Kelly function does return
0, as the claim says, but `maybe_trade` does NOT reject the trade: in
paper mode with every filter passing it inserts a trade row (with
`size_units = 0` and `price = 0`) and returns its id.  Cash is
unchanged.  The claim's "writes no Trade row and returns no trade id"
is violated. -/
theorem C3_zero_price_trade_not_rejected :
    kelly_fraction (best_side_and_edge (3/4) 0).2 0
      (best_side_and_edge (3/4) 0).1 KELLY_FRACTION MAX_POSITION_PCT = 0 ∧
    (maybe_trade c3intent true true c3state).1 = some 1 ∧
    (maybe_trade c3intent true true c3state).2.trades ≠ [] ∧
    (maybe_trade c3intent true true c3state).2.cash = 10000 := by
  have hside : best_side_and_edge (3/4) 0 = ("YES", 3/4) := by
    norm_num [best_side_and_edge, compute_edge]
  have hkelly : kelly_fraction (3/4) 0 "YES" KELLY_FRACTION
      MAX_POSITION_PCT = 0 := by
    norm_num [kelly_fraction]
  have hmt : maybe_trade c3intent true true c3state =
      (some 1, ⟨[⟨"kalshi:x", false⟩],
        [⟨"kalshi:x", 1, "kalshi", "YES", 0, 0, 0, 3/4, 1⟩],
        10000, 10000⟩) := by
    norm_num [maybe_trade, c3intent, c3state, c3market,
      count_open_positions, has_position, is_tradeable, hside, hkelly,
      size_from_fraction, insert_trade, deduct_cash,
      MIN_EDGE, MAX_OPEN_POSITIONS]
  refine ⟨by rw [hside]; exact hkelly, by rw [hmt], by rw [hmt]; simp,
    by rw [hmt]⟩

/-! ## Claim C8: Kelly output bounds and formula -/

/-- C8 counterexample: with a negative edge (−1/10) at effective price
1/2 on side YES, the output is 0, which is strictly below the cap, yet
0 ≠ KELLY_FRACTION · edge / (1 − price) = −1/20.  The claim's "when the
effective side price is in (0,1) and f is below the cap, f equals
KELLY_FRACTION times edge / (1 − price)" is therefore false as stated
for arbitrary edge values. -/
theorem C8_kelly_formula_counterexample :
    (0:ℚ) < 1/2 ∧ (1:ℚ)/2 < 1 ∧
    kelly_fraction (-1/10) (1/2) "YES" KELLY_FRACTION MAX_POSITION_PCT = 0 ∧
    kelly_fraction (-1/10) (1/2) "YES" KELLY_FRACTION MAX_POSITION_PCT <
      MAX_POSITION_PCT ∧
    kelly_fraction (-1/10) (1/2) "YES" KELLY_FRACTION MAX_POSITION_PCT ≠
      KELLY_FRACTION * ((-1/10) / (1 - 1/2)) := by
  have h : kelly_fraction (-1/10) (1/2) "YES" KELLY_FRACTION
      MAX_POSITION_PCT = 0 := by
    norm_num [kelly_fraction, KELLY_FRACTION, MAX_POSITION_PCT,
      min_def, max_def]
  refine ⟨by norm_num, by norm_num, h, ?_, ?_⟩
  · rw [h]; norm_num [MAX_POSITION_PCT]
  · rw [h]; norm_num [KELLY_FRACTION]

/-- C8 (amended): for every edge, market price and side, the Kelly
output `f` (at the default fractional 1/4 and cap `MAX_POSITION_PCT`)
satisfies `0 ≤ f ≤ MAX_POSITION_PCT`; and whenever the effective side
price lies in (0,1) and `f` is strictly below the cap,
`f = max 0 (KELLY_FRACTION · edge / (1 − price))` — in particular it
equals `KELLY_FRACTION · edge / (1 − price)` whenever that quantity is
nonnegative, as at every call site (edge is a magnitude). -/
theorem C8_kelly_bounds_and_formula (edge market_price : ℚ) (side : String) :
    0 ≤ kelly_fraction edge market_price side KELLY_FRACTION MAX_POSITION_PCT ∧
    kelly_fraction edge market_price side KELLY_FRACTION MAX_POSITION_PCT ≤
      MAX_POSITION_PCT ∧
    (0 < (if side = "YES" then market_price else 1 - market_price) →
     (if side = "YES" then market_price else 1 - market_price) < 1 →
     kelly_fraction edge market_price side KELLY_FRACTION MAX_POSITION_PCT <
       MAX_POSITION_PCT →
     kelly_fraction edge market_price side KELLY_FRACTION MAX_POSITION_PCT =
       max 0 (edge /
         (1 - (if side = "YES" then market_price else 1 - market_price)) *
           KELLY_FRACTION)) := by
  have hcap : (0:ℚ) ≤ MAX_POSITION_PCT := by norm_num [MAX_POSITION_PCT]
  simp only [kelly_fraction]
  by_cases hdeg : (if side = "YES" then market_price
      else 1 - market_price) ≤ 0 ∨
      1 ≤ (if side = "YES" then market_price else 1 - market_price)
  · rw [if_pos hdeg]
    refine ⟨le_refl 0, hcap, ?_⟩
    intro hp0 hp1 _
    rcases hdeg with h | h
    · exact absurd hp0 (not_lt.mpr h)
    · exact absurd hp1 (not_lt.mpr h)
  · rw [if_neg hdeg]
    refine ⟨le_max_left 0 _, max_le hcap (min_le_right _ _), ?_⟩
    intro _ _ hlt
    rcases le_or_lt (edge /
        (1 - (if side = "YES" then market_price else 1 - market_price)) *
          KELLY_FRACTION) MAX_POSITION_PCT with hle | hgt
    · rw [min_eq_left hle]
    · exfalso
      rw [min_eq_right (le_of_lt hgt), max_eq_right hcap] at hlt
      exact lt_irrefl _ hlt

/-- Witness for C8 at edge 1/25, price 1/2, side YES: output 1/50, in
bounds, below the cap, and equal to the Kelly formula. -/
theorem C8_kelly_bounds_and_formula_witness :
    0 ≤ kelly_fraction (1/25) (1/2) "YES" KELLY_FRACTION MAX_POSITION_PCT ∧
    kelly_fraction (1/25) (1/2) "YES" KELLY_FRACTION MAX_POSITION_PCT ≤
      MAX_POSITION_PCT ∧
    kelly_fraction (1/25) (1/2) "YES" KELLY_FRACTION MAX_POSITION_PCT =
      max 0 ((1/25) /
        (1 - (if "YES" = "YES" then (1:ℚ)/2 else 1 - 1/2)) *
          KELLY_FRACTION) := by
  have h := C8_kelly_bounds_and_formula (1/25) (1/2) "YES"
  refine ⟨h.1, h.2.1, ?_⟩
  exact h.2.2 (by norm_num) (by norm_num)
    (by norm_num [kelly_fraction, KELLY_FRACTION, MAX_POSITION_PCT,
      min_def, max_def])

/-! ## Calibration state, from `bot/db/store.py` and
`bot/learning/domain_calibrator.py` -/

/-- A row of the `calibration_state` table. -/
structure CalRow where
  domain : String
  model : String
  brier_score : ℚ
  n_resolved : ℕ
  domain_weight : ℚ
  entropy_threshold : Option ℚ
  deriving DecidableEq, Repr

/-- `upsert_calibration` from `bot/db/store.py`: on conflict of
`(domain, model)` it updates `brier_score`, `n_resolved` and
`domain_weight`, and sets `entropy_threshold` to
`COALESCE(excluded.entropy_threshold, entropy_threshold)` — i.e. keeps
the stored value when the new one is NULL. -/
def upsert_calibration (s : List CalRow) (domain model : String)
    (brier : ℚ) (n : ℕ) (weight : ℚ) (entropy_threshold : Option ℚ) :
    List CalRow :=
  if s.any (fun r => r.domain = domain ∧ r.model = model) then
    s.map (fun r =>
      if r.domain = domain ∧ r.model = model then
        { r with
            brier_score := brier
            n_resolved := n
            domain_weight := weight
            entropy_threshold := (match entropy_threshold with
              | some t => some t
              | none => r.entropy_threshold) }
      else r)
  else s ++ [⟨domain, model, brier, n, weight, entropy_threshold⟩]

/-- `get_calibration_state` from `bot/db/store.py`. -/
def get_calibration_state (s : List CalRow) (domain model : String) :
    Option CalRow :=
  s.find? (fun r => r.domain = domain ∧ r.model = model)

/-- `_brier_to_weight` from `bot/learning/domain_calibrator.py`, with
the configured constants inlined exactly as they evaluate:
`DOMAIN_WEIGHT_GOOD_BRIER = 0.15`, `RANDOM_BASELINE_BRIER = 0.25`,
`DOMAIN_WEIGHT_BAD_BRIER = 0.25`. -/
def brier_to_weight (brier : ℚ) : ℚ :=
  if brier < DOMAIN_WEIGHT_GOOD_BRIER then 3/2
  else if brier < 1/5 then 6/5
  else if brier < RANDOM_BASELINE_BRIER then 1
  else if brier < DOMAIN_WEIGHT_BAD_BRIER then 7/10
  else 3/10

/-- An `outcomes` row as consumed by the learning jobs (fields unused
by the embedded computations are omitted). -/
structure OutcomeRow where
  domain : String
  model : String
  brier : Option ℚ
  deriving DecidableEq, Repr

/-- One step of Python's `defaultdict` grouping: append `b` to the
group keyed `k`, preserving dict insertion order (new keys at the
back). -/
def add_to_groups (gs : List ((String × String) × List ℚ))
    (k : String × String) (b : ℚ) : List ((String × String) × List ℚ) :=
  if gs.any (fun g => g.1 = k) then
    gs.map (fun g => if g.1 = k then (g.1, g.2 ++ [b]) else g)
  else gs ++ [(k, [b])]

/-- The `(domain, model)` grouping loop of `run_calibration`: outcomes
with a NULL brier are dropped. -/
def group_outcomes (outcomes : List OutcomeRow) :
    List ((String × String) × List ℚ) :=
  outcomes.foldl (fun gs o =>
    match o.brier with
    | some b => add_to_groups gs (o.domain, o.model) b
    | none => gs) []

def list_mean (l : List ℚ) : ℚ := l.sum / l.length

/-- `run_calibration` from `bot/learning/domain_calibrator.py` as a
pure transformer of the calibration table: skip entirely below
`LEARNING_BATCH_SIZE` outcomes; for each `(domain, model)` group with
at least 3 samples, upsert mean Brier, count, and the step-function
weight.  `entropy_threshold` is passed as its Python default `None`. -/
def run_calibration (outcomes : List OutcomeRow) (s : List CalRow) :
    List CalRow :=
  if outcomes.length < LEARNING_BATCH_SIZE then s
  else (group_outcomes outcomes).foldl (fun st g =>
    if g.2.length < 3 then st
    else upsert_calibration st g.1.1 g.1.2 (list_mean g.2) g.2.length
      (brier_to_weight (list_mean g.2)) none) s

/-! ## Claim C1: the domain-weight step function -/

/-- Ten recent outcomes, three of them a `(politics, gpt-4.1)` group
with every Brier equal to 0.26 — squarely inside the spec's
`[0.25, 0.28) ↦ 0.7` band. -/
def c1outcomes : List OutcomeRow :=
  List.replicate 3 ⟨"politics", "gpt-4.1", some (13/50)⟩ ++
    List.replicate 7 ⟨"sports", "m", none⟩

/-- C1 (code bug): because `DOMAIN_WEIGHT_BAD_BRIER = 0.25` equals
`RANDOM_BASELINE_BRIER`, the `0.7` branch of `_brier_to_weight` is
unreachable.  A group with mean Brier 0.26 ∈ [0.25, 0.28) gets
`domain_weight` 0.3 persisted, not the 0.7 the spec's table (and the
function's own inline comments) prescribe. -/
theorem C1_brier_band_persists_wrong_weight :
    ((1:ℚ)/4 ≤ 13/50 ∧ (13:ℚ)/50 < 7/25) ∧
    brier_to_weight (13/50) = 3/10 ∧
    get_calibration_state (run_calibration c1outcomes []) "politics"
      "gpt-4.1" = some ⟨"politics", "gpt-4.1", 13/50, 3, 3/10, none⟩ ∧
    (3:ℚ)/10 ≠ 7/10 := by
  have hW : brier_to_weight (13/50) = 3/10 := by
    norm_num [brier_to_weight, DOMAIN_WEIGHT_GOOD_BRIER,
      RANDOM_BASELINE_BRIER, DOMAIN_WEIGHT_BAD_BRIER]
  refine ⟨⟨by norm_num, by norm_num⟩, hW, ?_, by norm_num⟩
  have hg : group_outcomes c1outcomes =
      [(("politics", "gpt-4.1"), [13/50, 13/50, 13/50])] := by
    simp [c1outcomes, group_outcomes, add_to_groups, List.replicate]
  have hm : list_mean [(13:ℚ)/50, 13/50, 13/50] = 13/50 := by
    norm_num [list_mean]
  have hlen : ¬ (c1outcomes.length < LEARNING_BATCH_SIZE) := by
    simp [c1outcomes, LEARNING_BATCH_SIZE]
  unfold run_calibration
  rw [if_neg hlen, hg]
  simp only [List.foldl_cons, List.foldl_nil, hm, hW]
  norm_num [upsert_calibration, get_calibration_state]

/-! ## Claim C10: upserting with a NULL threshold preserves it -/

/-- `find?` commutes with mapping a function that does not change the
predicate's verdict. -/
theorem find?_map_comm (f : CalRow → CalRow) (p : CalRow → Bool)
    (hp : ∀ r, p (f r) = p r) (s : List CalRow) :
    (s.map f).find? p = (s.find? p).map f := by
  induction s with
  | nil => rfl
  | cons a l ih =>
    by_cases hpa : p a = true
    · simp [List.find?_cons_of_pos, hp, hpa]
    · rw [List.map_cons, List.find?_cons_of_neg _ (by rw [hp]; exact hpa),
        List.find?_cons_of_neg _ hpa, ih]

/-- An upsert carrying `entropy_threshold = none` never changes any
stored row's `entropy_threshold` (matched rows keep theirs by the
COALESCE; other rows are untouched; a fresh row was not stored). -/
theorem upsert_none_keeps_threshold (s : List CalRow) (d' m' : String)
    (b : ℚ) (n : ℕ) (w : ℚ) (d m : String) (r : CalRow)
    (h : get_calibration_state s d m = some r) :
    ∃ r', get_calibration_state
        (upsert_calibration s d' m' b n w none) d m = some r' ∧
      r'.entropy_threshold = r.entropy_threshold := by
  unfold get_calibration_state at h ⊢
  unfold upsert_calibration
  split_ifs with hany
  · rw [find?_map_comm _ _ ?_, h]
    · refine ⟨_, rfl, ?_⟩
      by_cases hk : r.domain = d' ∧ r.model = m' <;> simp [hk]
    · intro r0
      by_cases hk : r0.domain = d' ∧ r0.model = m' <;> simp [hk]
  · refine ⟨r, ?_, rfl⟩
    rw [List.find?_append, h]
    rfl

/-- The calibration-run fold preserves every stored
`entropy_threshold`. -/
theorem calibration_fold_keeps_threshold
    (gs : List ((String × String) × List ℚ)) (s : List CalRow)
    (d m : String) (r : CalRow)
    (h : get_calibration_state s d m = some r) :
    ∃ r', get_calibration_state
        (gs.foldl (fun st g =>
          if g.2.length < 3 then st
          else upsert_calibration st g.1.1 g.1.2 (list_mean g.2)
            g.2.length (brier_to_weight (list_mean g.2)) none) s) d m =
        some r' ∧
      r'.entropy_threshold = r.entropy_threshold := by
  induction gs generalizing s r with
  | nil => exact ⟨r, h, rfl⟩
  | cons g gs ih =>
    rw [List.foldl_cons]
    by_cases hlen : g.2.length < 3
    · rw [if_pos hlen]
      exact ih s r h
    · rw [if_neg hlen]
      obtain ⟨r1, hr1, het1⟩ := upsert_none_keeps_threshold s g.1.1 g.1.2
        (list_mean g.2) g.2.length (brier_to_weight (list_mean g.2)) d m
        r h
      obtain ⟨r2, hr2, het2⟩ := ih _ r1 hr1
      exact ⟨r2, hr2, het2.trans het1⟩

/-- C10: (a) for an existing `(domain, model)` calibration row, an
upsert with `entropy_threshold = None` updates `brier_score`,
`n_resolved` and `domain_weight` but leaves the stored
`entropy_threshold` unchanged; (b) consequently a full domain
calibration run (which always passes `None`) never erases a previously
adapted entropy threshold of any stored row. -/
theorem C10_calibration_run_preserves_thresholds :
    (∀ (s : List CalRow) (d m : String) (b : ℚ) (n : ℕ) (w : ℚ)
        (r : CalRow), get_calibration_state s d m = some r →
      get_calibration_state (upsert_calibration s d m b n w none) d m =
        some { r with
                 brier_score := b
                 n_resolved := n
                 domain_weight := w }) ∧
    (∀ (outcomes : List OutcomeRow) (s : List CalRow) (d m : String)
        (r : CalRow), get_calibration_state s d m = some r →
      ∃ r', get_calibration_state (run_calibration outcomes s) d m =
          some r' ∧
        r'.entropy_threshold = r.entropy_threshold) := by
  constructor
  · intro s d m b n w r h
    unfold get_calibration_state at h ⊢
    have hpr := List.find?_some h
    have hkey : r.domain = d ∧ r.model = m := by simpa using hpr
    unfold upsert_calibration
    rw [if_pos (List.any_eq_true.mpr ⟨r, List.mem_of_find?_eq_some h,
      hpr⟩)]
    rw [find?_map_comm _ _ ?_, h]
    · simp [hkey]
    · intro r0
      by_cases hk : r0.domain = d ∧ r0.model = m <;> simp [hk]
  · intro outcomes s d m r h
    unfold run_calibration
    split_ifs
    · exact ⟨r, h, rfl⟩
    · exact calibration_fold_keeps_threshold _ s d m r h

/-- Witness for C10 at a concrete store: a `(politics, m)` row with an
adapted threshold of 3 bits keeps it across an upsert with `None` and
across a calibration run. -/
theorem C10_calibration_run_preserves_thresholds_witness :
    (get_calibration_state
        (upsert_calibration [⟨"politics", "m", 1/5, 3, 1, some 3⟩]
          "politics" "m" (1/10) 5 (3/2) none) "politics" "m" =
      some ⟨"politics", "m", 1/10, 5, 3/2, some 3⟩) ∧
    (∃ r', get_calibration_state
        (run_calibration [] [⟨"politics", "m", 1/5, 3, 1, some 3⟩])
          "politics" "m" = some r' ∧
      r'.entropy_threshold = some 3) := by
  constructor
  · exact C10_calibration_run_preserves_thresholds.1
      [⟨"politics", "m", 1/5, 3, 1, some 3⟩] "politics" "m" (1/10) 5
      (3/2) ⟨"politics", "m", 1/5, 3, 1, some 3⟩
      (by simp [get_calibration_state])
  · exact C10_calibration_run_preserves_thresholds.2 []
      [⟨"politics", "m", 1/5, 3, 1, some 3⟩] "politics" "m"
      ⟨"politics", "m", 1/5, 3, 1, some 3⟩
      (by simp [get_calibration_state])

/-! ## Model selection, from `bot/config.py` and
`bot/learning/model_selector.py` -/

/-- An entry of the `MODELS` roster in `bot/config.py`. -/
structure ModelCfg where
  id : String
  provider : String
  has_logprobs : Bool
  weight : ℚ
  deriving DecidableEq, Repr

/-- The `MODELS` roster from `bot/config.py`. -/
def MODELS : List ModelCfg :=
  [⟨"claude-sonnet-4-6", "anthropic", true, 1⟩,
   ⟨"gpt-4.1", "openai", true, 1⟩,
   ⟨"deepseek-chat", "deepseek", true, 4/5⟩]

/-- `defaultdict` grouping step keyed by model name. -/
def add_to_model_groups (gs : List (String × List ℚ)) (k : String)
    (b : ℚ) : List (String × List ℚ) :=
  if gs.any (fun g => g.1 = k) then
    gs.map (fun g => if g.1 = k then (g.1, g.2 ++ [b]) else g)
  else gs ++ [(k, [b])]

/-- The per-model grouping loop of `run_model_selection`: rows with a
NULL brier or an empty (falsy) model are dropped. -/
def model_briers (outcomes : List OutcomeRow) : List (String × List ℚ) :=
  outcomes.foldl (fun gs o =>
    match o.brier with
    | some b => if o.model ≠ "" then add_to_model_groups gs o.model b
        else gs
    | none => gs) []

/-- `dict.get(k, default)` over an association list. -/
def dict_getD (d : List (String × ℚ)) (k : String) (v : ℚ) : ℚ :=
  match d.find? (fun p => p.1 = k) with
  | some p => p.2
  | none => v

/-- `model_briers.get(model_id, [])`. -/
def groups_get (gs : List (String × List ℚ)) (k : String) : List ℚ :=
  match gs.find? (fun g => g.1 = k) with
  | some g => g.2
  | none => []

/-- The per-model weight loop of `run_model_selection`, before
normalisation: with no samples the stored DB weight (default 1.0) is
kept; a mean Brier above `MODEL_KILL_BRIER` kills the model to weight
0; otherwise `skill = max(0.01, 1 − mean_brier/0.25)`.  Python iterates
`active_models` as a set; it is modelled in roster order (the verified
sum is order-independent). -/
def pre_norm_weights (outcomes : List OutcomeRow)
    (db_weights : List (String × ℚ)) : List (String × ℚ) :=
  (MODELS.map (fun cfg => cfg.id)).map (fun mid =>
    let briers := groups_get (model_briers outcomes) mid
    if briers = [] then (mid, dict_getD db_weights mid 1)
    else
      let mean_brier := list_mean briers
      if MODEL_KILL_BRIER < mean_brier then (mid, 0)
      else (mid, max (1/100) (1 - mean_brier / (1/4))))

/-- `sum(w for w in weights.values() if w > 0)`. -/
def pos_weight_sum (l : List ℚ) : ℚ :=
  (l.filter (fun w => 0 < w)).sum

/-- `run_model_selection` from `bot/learning/model_selector.py` as a
pure function from (recent outcomes, stored weights) to the weight dict
it returns; when the positive total is positive, every weight is
divided by it, and the final per-model persistence writes exactly these
returned weights. -/
def run_model_selection (outcomes : List OutcomeRow)
    (db_weights : List (String × ℚ)) : List (String × ℚ) :=
  let weights := pre_norm_weights outcomes db_weights
  let total := pos_weight_sum (weights.map (fun p => p.2))
  if 0 < total then weights.map (fun p => (p.1, p.2 / total))
  else weights

/-! ## Claim C4: active weights sum to 1 after a selection run -/

/-- One outcome of mean Brier 0.30 for each of the three roster
models: every model trips the kill switch. -/
def c4outcomes : List OutcomeRow :=
  [⟨"politics", "claude-sonnet-4-6", some (3/10)⟩,
   ⟨"politics", "gpt-4.1", some (3/10)⟩,
   ⟨"politics", "deepseek-chat", some (3/10)⟩]

/-- C4 counterexample: when every roster model's rolling Brier exceeds
`MODEL_KILL_BRIER`, all weights are killed to 0, the normalisation is
skipped (total is not positive), and the persisted weights sum over
positive entries to 0 — not 1, and not within 1e-9 of 1. -/
theorem C4_all_models_killed_counterexample :
    run_model_selection c4outcomes [] =
      [("claude-sonnet-4-6", 0), ("gpt-4.1", 0), ("deepseek-chat", 0)] ∧
    ¬ (|pos_weight_sum ((run_model_selection c4outcomes []).map
        (fun p => p.2)) - 1| ≤ 1/1000000000) := by
  have hmb : model_briers c4outcomes =
      [("claude-sonnet-4-6", [3/10]), ("gpt-4.1", [3/10]),
       ("deepseek-chat", [3/10])] := by
    simp [c4outcomes, model_briers, add_to_model_groups]
  have hpre : pre_norm_weights c4outcomes [] =
      [("claude-sonnet-4-6", 0), ("gpt-4.1", 0), ("deepseek-chat", 0)] := by
    simp [pre_norm_weights, MODELS, hmb, groups_get, dict_getD,
      list_mean, MODEL_KILL_BRIER, List.find?]
    norm_num
  have hrun : run_model_selection c4outcomes [] =
      [("claude-sonnet-4-6", 0), ("gpt-4.1", 0), ("deepseek-chat", 0)] := by
    norm_num [run_model_selection, hpre, pos_weight_sum]
  refine ⟨hrun, ?_⟩
  rw [hrun]
  norm_num [pos_weight_sum]

/-- `pos_weight_sum` commutes with dividing every entry by a positive
constant. -/
theorem pos_weight_sum_div (l : List ℚ) (t : ℚ) (ht : 0 < t) :
    pos_weight_sum (l.map (fun x => x / t)) = pos_weight_sum l / t := by
  induction l with
  | nil => simp [pos_weight_sum]
  | cons x l ih =>
    unfold pos_weight_sum at ih ⊢
    simp only [List.map_cons, List.filter_cons]
    by_cases hx : 0 < x
    · rw [if_pos (by simpa using div_pos hx ht),
        if_pos (by simpa using hx)]
      simp only [List.sum_cons]
      rw [ih, add_div]
    · have hxt : ¬ (0 < x / t) := by
        rw [not_lt]
        exact div_nonpos_iff.mpr (Or.inr ⟨le_of_not_lt hx, ht.le⟩)
      rw [if_neg (by simpa using hxt), if_neg (by simpa using hx)]
      exact ih

/-- C4 (amended): whenever at least one model survives with a positive
pre-normalisation weight (so the normalisation branch runs), the
weights returned and persisted by `run_model_selection` have their
positive entries summing to exactly 1 — in particular within 1e-9. -/
theorem C4_active_weights_sum_to_one (outcomes : List OutcomeRow)
    (db_weights : List (String × ℚ))
    (h : 0 < pos_weight_sum ((pre_norm_weights outcomes db_weights).map
      (fun p => p.2))) :
    pos_weight_sum ((run_model_selection outcomes db_weights).map
      (fun p => p.2)) = 1 := by
  unfold run_model_selection
  rw [if_pos h]
  have key := pos_weight_sum_div
    ((pre_norm_weights outcomes db_weights).map (fun p => p.2)) _ h
  rw [div_self (ne_of_gt h)] at key
  rw [← key, List.map_map, List.map_map]
  rfl

/-- Witness for C4 at the empty store: all three models keep default
weight 1, the total is 3, and the normalised positive weights sum to
1. -/
theorem C4_active_weights_sum_to_one_witness :
    pos_weight_sum ((run_model_selection [] []).map (fun p => p.2)) = 1 :=
  C4_active_weights_sum_to_one [] []
    (by norm_num [pre_norm_weights, MODELS, model_briers, groups_get,
      dict_getD, pos_weight_sum])

/-! ## Confidence tier and ensemble, from `bot/intelligence/entropy.py`
and `bot/intelligence/ensemble.py` -/

/-- `domain_threshold if domain_threshold is not None else
ENTROPY_HIGH_TIER` from `confidence_tier`. -/
def effective_threshold (domain_threshold : Option ℚ) : ℚ :=
  match domain_threshold with
  | some t => t
  | none => ENTROPY_HIGH_TIER

/-- `confidence_tier` from `bot/intelligence/entropy.py`; the `domain`
argument of the Python signature is unused there and dropped. -/
def confidence_tier (entropy : ℚ) (domain_threshold : Option ℚ) :
    String :=
  let threshold := effective_threshold domain_threshold
  let medium_threshold := threshold * (3/2)
  if entropy ≤ threshold then "high"
  else if entropy ≤ medium_threshold then "medium"
  else "low"

/-- The `Forecast` dataclass of `bot/intelligence/forecaster.py`
(token counts and the per-model tier field are unused by the embedded
pipeline steps and omitted). -/
structure ForecastRec where
  model : String
  prompt_version : String
  raw_probability : ℚ
  entropy : ℚ
  reasoning : String
  news_used : Bool
  deriving DecidableEq, Repr

/-- `calibration.get((domain, model), 1.0)` over an association
list. -/
def cal_getD (cal : List ((String × String) × ℚ)) (k : String × String)
    (v : ℚ) : ℚ :=
  match cal.find? (fun p => p.1 = k) with
  | some p => p.2
  | none => v

/-- The per-forecast weight of `combine`:
`model_weights.get(model, 1.0) * calibration.get((domain, model), 1.0)`. -/
def ensemble_weight (model_weights : List (String × ℚ))
    (calibration : List ((String × String) × ℚ)) (domain : String)
    (f : ForecastRec) : ℚ :=
  dict_getD model_weights f.model 1 *
    cal_getD calibration (domain, f.model) 1

/-- One iteration of `combine`'s accumulation loop: forecasts of
non-positive weight are skipped, the rest accumulate weighted
probability, weighted entropy and total weight. -/
def combine_step (model_weights : List (String × ℚ))
    (calibration : List ((String × String) × ℚ)) (domain : String)
    (a : ℚ × ℚ × ℚ) (f : ForecastRec) : ℚ × ℚ × ℚ :=
  let w := ensemble_weight model_weights calibration domain f
  if w ≤ 0 then a
  else (a.1 + f.raw_probability * w, a.2.1 + f.entropy * w, a.2.2 + w)

/-- `combine` from `bot/intelligence/ensemble.py`: empty input falls
back to `(0.5, 6.0, "low")`; zero total weight falls back to the
arithmetic mean with entropy 5.0 and tier `low`; otherwise the weighted
means with the tier derived from the ensemble entropy. -/
def combine (forecasts : List ForecastRec)
    (model_weights : List (String × ℚ))
    (calibration : List ((String × String) × ℚ)) (domain : String)
    (domain_threshold : Option ℚ) : ℚ × ℚ × String :=
  if forecasts = [] then (1/2, 6, "low")
  else
    let acc := forecasts.foldl
      (combine_step model_weights calibration domain) (0, 0, 0)
    if acc.2.2 ≤ 0 then
      ((forecasts.map (fun f => f.raw_probability)).sum /
        forecasts.length, 5, "low")
    else
      (acc.1 / acc.2.2, acc.2.1 / acc.2.2,
        confidence_tier (acc.2.1 / acc.2.2) domain_threshold)

/-- A row of the `forecasts` table as inserted by `_process_market`
step 8 in `bot/agent.py`. -/
structure ForecastRow where
  market_id : String
  model : String
  prompt_version : String
  raw_probability : ℚ
  entropy : ℚ
  ensemble_probability : ℚ
  confidence_tier : String
  reasoning_excerpt : String
  news_used : ℕ
  deriving DecidableEq, Repr

/-- Steps 7–8 of `_process_market` in `bot/agent.py`: combine the
per-model forecasts, then insert one row per forecast — each carrying
its own `raw_probability` and `entropy` but the shared ensemble
probability and confidence tier. -/
def written_forecast_rows (mid : String) (forecasts : List ForecastRec)
    (model_weights : List (String × ℚ))
    (calibration : List ((String × String) × ℚ)) (domain : String)
    (domain_threshold : Option ℚ) : List ForecastRow :=
  let e := combine forecasts model_weights calibration domain
    domain_threshold
  forecasts.map (fun f =>
    ⟨mid, f.model, f.prompt_version, f.raw_probability, f.entropy,
      e.1, e.2.2, f.reasoning, if f.news_used then 1 else 0⟩)

/-! ### Shared ensemble lemmas -/

/-- The accumulation fold of `combine` computes, over the forecasts of
positive weight, the sums of weighted probability, weighted entropy and
weight. -/
theorem ensemble_fold_spec (model_weights : List (String × ℚ))
    (calibration : List ((String × String) × ℚ)) (domain : String)
    (fs : List ForecastRec) (a b c : ℚ) :
    fs.foldl (combine_step model_weights calibration domain) (a, b, c) =
      (a + ((fs.filter (fun f =>
          0 < ensemble_weight model_weights calibration domain f)).map
        (fun f => f.raw_probability *
          ensemble_weight model_weights calibration domain f)).sum,
       b + ((fs.filter (fun f =>
          0 < ensemble_weight model_weights calibration domain f)).map
        (fun f => f.entropy *
          ensemble_weight model_weights calibration domain f)).sum,
       c + ((fs.filter (fun f =>
          0 < ensemble_weight model_weights calibration domain f)).map
        (fun f =>
          ensemble_weight model_weights calibration domain f)).sum) := by
  induction fs generalizing a b c with
  | nil => simp
  | cons f fs ih =>
    simp only [List.foldl_cons, List.filter_cons]
    by_cases hw : 0 < ensemble_weight model_weights calibration domain f
    · rw [if_pos (by simpa using hw)]
      have hstep : combine_step model_weights calibration domain
          (a, b, c) f =
          (a + f.raw_probability *
            ensemble_weight model_weights calibration domain f,
           b + f.entropy *
            ensemble_weight model_weights calibration domain f,
           c + ensemble_weight model_weights calibration domain f) := by
        unfold combine_step
        rw [if_neg (not_le.mpr hw)]
      rw [hstep, ih]
      simp only [List.map_cons, List.sum_cons, Prod.mk.injEq]
      refine ⟨by ring, by ring, by ring⟩
    · have hstep : combine_step model_weights calibration domain
          (a, b, c) f = (a, b, c) := by
        unfold combine_step
        rw [if_pos (not_lt.mp hw)]
      rw [if_neg (by simpa using hw), hstep]
      exact ih a b c

/-- `combine` in the positive-total-weight branch equals the weighted
means, with the tier derived from the ensemble entropy. -/
theorem combine_pos_spec (fs : List ForecastRec)
    (mw : List (String × ℚ)) (cal : List ((String × String) × ℚ))
    (domain : String) (dt : Option ℚ) (hne : fs ≠ [])
    (hW : 0 < ((fs.filter (fun f =>
        0 < ensemble_weight mw cal domain f)).map
      (fun f => ensemble_weight mw cal domain f)).sum) :
    combine fs mw cal domain dt =
      (((fs.filter (fun f => 0 < ensemble_weight mw cal domain f)).map
          (fun f => f.raw_probability *
            ensemble_weight mw cal domain f)).sum /
        ((fs.filter (fun f => 0 < ensemble_weight mw cal domain f)).map
          (fun f => ensemble_weight mw cal domain f)).sum,
       ((fs.filter (fun f => 0 < ensemble_weight mw cal domain f)).map
          (fun f => f.entropy * ensemble_weight mw cal domain f)).sum /
        ((fs.filter (fun f => 0 < ensemble_weight mw cal domain f)).map
          (fun f => ensemble_weight mw cal domain f)).sum,
       confidence_tier
         (((fs.filter (fun f => 0 < ensemble_weight mw cal domain f)).map
            (fun f => f.entropy * ensemble_weight mw cal domain f)).sum /
          ((fs.filter (fun f => 0 < ensemble_weight mw cal domain f)).map
            (fun f => ensemble_weight mw cal domain f)).sum) dt) := by
  unfold combine
  rw [if_neg hne]
  simp only [ensemble_fold_spec, zero_add]
  rw [if_neg (not_le.mpr hW)]

/-- `combine` in the zero-total-weight branch equals the arithmetic
mean of the probabilities with entropy 5 and tier `low`. -/
theorem combine_zero_spec (fs : List ForecastRec)
    (mw : List (String × ℚ)) (cal : List ((String × String) × ℚ))
    (domain : String) (dt : Option ℚ) (hne : fs ≠ [])
    (hW : ((fs.filter (fun f =>
        0 < ensemble_weight mw cal domain f)).map
      (fun f => ensemble_weight mw cal domain f)).sum = 0) :
    combine fs mw cal domain dt =
      ((fs.map (fun f => f.raw_probability)).sum / fs.length, 5,
        "low") := by
  unfold combine
  rw [if_neg hne]
  simp only [ensemble_fold_spec, zero_add]
  rw [if_pos (le_of_eq hW)]

/-- The tier function's branches, as biconditionals against the
effective threshold. -/
theorem confidence_tier_iff (e : ℚ) (dt : Option ℚ) :
    (confidence_tier e dt = "high" ↔ e ≤ effective_threshold dt) ∧
    (confidence_tier e dt = "medium" ↔
      (effective_threshold dt < e ∧
        e ≤ effective_threshold dt * (3/2))) := by
  simp only [confidence_tier]
  split_ifs with h1 h2
  · refine ⟨⟨fun _ => h1, fun _ => rfl⟩, ⟨?_, ?_⟩⟩
    · intro h
      exact absurd h (by simp)
    · rintro ⟨hlt, _⟩
      exact absurd h1 (not_le.mpr hlt)
  · refine ⟨⟨?_, ?_⟩, ⟨fun _ => ⟨not_le.mp h1, h2⟩, fun _ => rfl⟩⟩
    · intro h
      exact absurd h (by simp)
    · intro h
      exact absurd h h1
  · refine ⟨⟨?_, ?_⟩, ⟨?_, ?_⟩⟩
    · intro h
      exact absurd h (by simp)
    · intro h
      exact absurd h h1
    · intro h
      exact absurd h (by simp)
    · rintro ⟨_, hle⟩
      exact absurd hle h2

/-! ## Claim C7: the ensemble combination formula -/

/-- C7: for every non-empty forecast list, `combine` drops
non-positive weights `w_i = mw·dw` (defaulting to 1), and returns the
weighted means of probability and entropy when the total positive
weight is positive, and the arithmetic-mean fallback `(mean, 5.0, low)`
when the total weight is zero. -/
theorem C7_combine_weighted_means (fs : List ForecastRec)
    (mw : List (String × ℚ)) (cal : List ((String × String) × ℚ))
    (domain : String) (dt : Option ℚ) (hne : fs ≠ []) :
    (0 < ((fs.filter (fun f => 0 < ensemble_weight mw cal domain f)).map
        (fun f => ensemble_weight mw cal domain f)).sum →
      (combine fs mw cal domain dt).1 =
        ((fs.filter (fun f => 0 < ensemble_weight mw cal domain f)).map
          (fun f => f.raw_probability *
            ensemble_weight mw cal domain f)).sum /
        ((fs.filter (fun f => 0 < ensemble_weight mw cal domain f)).map
          (fun f => ensemble_weight mw cal domain f)).sum ∧
      (combine fs mw cal domain dt).2.1 =
        ((fs.filter (fun f => 0 < ensemble_weight mw cal domain f)).map
          (fun f => f.entropy * ensemble_weight mw cal domain f)).sum /
        ((fs.filter (fun f => 0 < ensemble_weight mw cal domain f)).map
          (fun f => ensemble_weight mw cal domain f)).sum) ∧
    (((fs.filter (fun f => 0 < ensemble_weight mw cal domain f)).map
        (fun f => ensemble_weight mw cal domain f)).sum = 0 →
      combine fs mw cal domain dt =
        ((fs.map (fun f => f.raw_probability)).sum / fs.length, 5,
          "low")) := by
  constructor
  · intro hW
    rw [combine_pos_spec fs mw cal domain dt hne hW]
    exact ⟨rfl, rfl⟩
  · intro hW
    exact combine_zero_spec fs mw cal domain dt hne hW

/-- The single-forecast input of the C7 witness. -/
def c7f : ForecastRec := ⟨"m1", "v1", 1/2, 2, "r", false⟩

/-- Witness for C7 at a single forecast of weight 1. -/
theorem C7_combine_weighted_means_witness :
    (0 < (([c7f].filter (fun f =>
        0 < ensemble_weight [] [] "politics" f)).map
        (fun f => ensemble_weight [] [] "politics" f)).sum →
      (combine [c7f] [] [] "politics" none).1 =
        (([c7f].filter (fun f =>
          0 < ensemble_weight [] [] "politics" f)).map
          (fun f => f.raw_probability *
            ensemble_weight [] [] "politics" f)).sum /
        (([c7f].filter (fun f =>
          0 < ensemble_weight [] [] "politics" f)).map
          (fun f => ensemble_weight [] [] "politics" f)).sum ∧
      (combine [c7f] [] [] "politics" none).2.1 =
        (([c7f].filter (fun f =>
          0 < ensemble_weight [] [] "politics" f)).map
          (fun f => f.entropy *
            ensemble_weight [] [] "politics" f)).sum /
        (([c7f].filter (fun f =>
          0 < ensemble_weight [] [] "politics" f)).map
          (fun f => ensemble_weight [] [] "politics" f)).sum) ∧
    ((([c7f].filter (fun f =>
        0 < ensemble_weight [] [] "politics" f)).map
        (fun f => ensemble_weight [] [] "politics" f)).sum = 0 →
      combine [c7f] [] [] "politics" none =
        (([c7f].map (fun f => f.raw_probability)).sum /
          ([c7f] : List ForecastRec).length, 5, "low")) :=
  C7_combine_weighted_means [c7f] [] [] "politics" none (by simp)

/-! ## Claim C5: confidence tier of stored forecast rows -/

/-- Two forecasts sharing a probability but with entropies 1 and 7
bits; with every weight defaulting to 1 the ensemble entropy is 4. -/
def c5forecasts : List ForecastRec :=
  [⟨"m1", "v1", 1/2, 1, "r", false⟩, ⟨"m2", "v1", 1/2, 7, "r", false⟩]

/-- Concrete evaluation of the ensemble on `c5forecasts` with the
default threshold 4: entropy 4, tier `high`. -/
theorem c5_combine_eval :
    combine c5forecasts [] [] "politics" none = (1/2, 4, "high") := by
  have hW : (([(⟨"m1", "v1", 1/2, 1, "r", false⟩ : ForecastRec),
      ⟨"m2", "v1", 1/2, 7, "r", false⟩].filter (fun f =>
        0 < ensemble_weight [] [] "politics" f)).map
      (fun f => ensemble_weight [] [] "politics" f)).sum = 2 := by
    simp [ensemble_weight, dict_getD, cal_getD]
    norm_num
  have h := combine_pos_spec c5forecasts [] [] "politics" none
    (by simp [c5forecasts]) (by rw [show c5forecasts =
      [⟨"m1", "v1", 1/2, 1, "r", false⟩,
       ⟨"m2", "v1", 1/2, 7, "r", false⟩] from rfl, hW]; norm_num)
  rw [h]
  rw [show c5forecasts = [⟨"m1", "v1", 1/2, 1, "r", false⟩,
    ⟨"m2", "v1", 1/2, 7, "r", false⟩] from rfl, hW]
  have hp : (([(⟨"m1", "v1", 1/2, 1, "r", false⟩ : ForecastRec),
      ⟨"m2", "v1", 1/2, 7, "r", false⟩].filter (fun f =>
        0 < ensemble_weight [] [] "politics" f)).map
      (fun f => f.raw_probability *
        ensemble_weight [] [] "politics" f)).sum = 1 := by
    simp [ensemble_weight, dict_getD, cal_getD]
    norm_num
  have hh : (([(⟨"m1", "v1", 1/2, 1, "r", false⟩ : ForecastRec),
      ⟨"m2", "v1", 1/2, 7, "r", false⟩].filter (fun f =>
        0 < ensemble_weight [] [] "politics" f)).map
      (fun f => f.entropy *
        ensemble_weight [] [] "politics" f)).sum = 8 := by
    simp [ensemble_weight, dict_getD, cal_getD]
    norm_num
  rw [hp, hh]
  norm_num [confidence_tier, effective_threshold, ENTROPY_HIGH_TIER,
    ENTROPY_THRESHOLD_DEFAULT]

/-- C5 counterexample: the stored rows all carry the ensemble tier,
so the `m2` row is written with `confidence_tier = "high"` although its
own stored entropy 7 exceeds the domain threshold τ = 4.  The claimed
biconditional between a row's tier and its own entropy is false. -/
theorem C5_row_tier_counterexample :
    ∃ r ∈ written_forecast_rows "mkt" c5forecasts [] [] "politics" none,
      r.confidence_tier = "high" ∧ ENTROPY_HIGH_TIER < r.entropy := by
  refine ⟨⟨"mkt", "m2", "v1", 1/2, 7, 1/2, "high", "r", 0⟩, ?_, rfl,
    by norm_num [ENTROPY_HIGH_TIER, ENTROPY_THRESHOLD_DEFAULT]⟩
  simp only [written_forecast_rows, c5_combine_eval]
  simp [c5forecasts]

/-- C5 (amended): every Forecast row written by the pipeline carries
the tier of the ENSEMBLE entropy, not of its own stored entropy:
whenever the ensemble's total weight is positive, a written row's
`confidence_tier` is `high` iff the ensemble entropy is ≤ τ and
`medium` iff the ensemble entropy lies in (τ, 1.5·τ]. -/
theorem C5_row_tier_from_ensemble_entropy (mid : String)
    (fs : List ForecastRec) (mw : List (String × ℚ))
    (cal : List ((String × String) × ℚ)) (domain : String)
    (dt : Option ℚ) (r : ForecastRow)
    (hr : r ∈ written_forecast_rows mid fs mw cal domain dt)
    (hW : 0 < ((fs.filter (fun f =>
        0 < ensemble_weight mw cal domain f)).map
      (fun f => ensemble_weight mw cal domain f)).sum) :
    (r.confidence_tier = "high" ↔
      (combine fs mw cal domain dt).2.1 ≤ effective_threshold dt) ∧
    (r.confidence_tier = "medium" ↔
      (effective_threshold dt < (combine fs mw cal domain dt).2.1 ∧
        (combine fs mw cal domain dt).2.1 ≤
          effective_threshold dt * (3/2))) := by
  have hne : fs ≠ [] := by
    intro h
    rw [h] at hr
    simp [written_forecast_rows] at hr
  have htier : r.confidence_tier = (combine fs mw cal domain dt).2.2 := by
    simp only [written_forecast_rows] at hr
    obtain ⟨f, _, rfl⟩ := List.mem_map.mp hr
    rfl
  have hcomb := combine_pos_spec fs mw cal domain dt hne hW
  rw [htier, hcomb]
  exact confidence_tier_iff _ dt

/-- Witness for C5 at the first `c5forecasts` row. -/
theorem C5_row_tier_from_ensemble_entropy_witness :
    ((⟨"mkt", "m1", "v1", 1/2, 1, 1/2, "high", "r", 0⟩ :
        ForecastRow).confidence_tier = "high" ↔
      (combine c5forecasts [] [] "politics" none).2.1 ≤
        effective_threshold none) ∧
    ((⟨"mkt", "m1", "v1", 1/2, 1, 1/2, "high", "r", 0⟩ :
        ForecastRow).confidence_tier = "medium" ↔
      (effective_threshold none <
        (combine c5forecasts [] [] "politics" none).2.1 ∧
        (combine c5forecasts [] [] "politics" none).2.1 ≤
          effective_threshold none * (3/2))) :=
  C5_row_tier_from_ensemble_entropy "mkt" c5forecasts [] [] "politics"
    none ⟨"mkt", "m1", "v1", 1/2, 1, 1/2, "high", "r", 0⟩
    (by simp only [written_forecast_rows, c5_combine_eval]
        simp [c5forecasts])
    (by rw [show c5forecasts = [⟨"m1", "v1", 1/2, 1, "r", false⟩,
        ⟨"m2", "v1", 1/2, 7, "r", false⟩] from rfl]
        simp [ensemble_weight, dict_getD, cal_getD])

/-! ## Prompt experiments, from `bot/db/store.py` and
`bot/learning/prompt_evolver.py` -/

/-- A row of the `prompt_experiments` table. -/
structure PromptRow where
  prompt_version : String
  domain : Option String
  prompt_template : String
  n_trials : ℕ
  n_wins : ℕ
  mean_brier : Option ℚ
  active : ℕ
  deriving DecidableEq, Repr

/-- `PROMPT_V1` from `bot/learning/prompt_evolver.py` (the raw
template text, braces written as hex escapes). -/
def PROMPT_V1 : String :=
  "You are a calibrated forecaster. Given this prediction market question:\n\"\x7bquestion\x7d\"\n[Domain: \x7bdomain\x7d]\n\x7bnews_context\x7d\nGuidelines:\n- Weight base rates equally with recent news\n- Distinguish confirmed facts from speculation\n- Consider the specific resolution criteria carefully\n- Current market price: \x7bmarket_price\x7d\n\nProvide:\n1. Probability (0-100%) that this resolves YES\n2. Your reasoning (2-3 sentences)\n\nJSON only: \x7b\x7b\"probability\": <0-100>, \"reasoning\": \"...\"\x7d\x7d"

/-- `PROMPT_V2` from `bot/learning/prompt_evolver.py`. -/
def PROMPT_V2 : String :=
  "[Forecasting task]\nQuestion: \"\x7bquestion\x7d\"\nDomain: \x7bdomain\x7d\nCurrent market price: \x7bmarket_price\x7d\n\x7bnews_context\x7d\nStep 1: What is the base rate for this type of event?\nStep 2: What does recent evidence add? (flag if speculative)\nStep 3: What is the specific resolution criteria?\nStep 4: What is your calibrated probability?\n\nJSON: \x7b\x7b\"probability\": <0-100>, \"reasoning\": \"...\"\x7d\x7d"

/-- `get_active_prompts` from `bot/db/store.py`, called as
`get_active_prompts()` (no domain filter): rows with `active = 1`. -/
def get_active_prompts (s : List PromptRow) : List PromptRow :=
  s.filter (fun p => p.active = 1)

/-- `upsert_prompt_experiment` from `bot/db/store.py`: on conflict of
`prompt_version` it updates `n_trials`, `n_wins`, `mean_brier` and
`active` but not `domain` or `prompt_template`. -/
def upsert_prompt_experiment (s : List PromptRow) (p : PromptRow) :
    List PromptRow :=
  if s.any (fun r => r.prompt_version = p.prompt_version) then
    s.map (fun r =>
      if r.prompt_version = p.prompt_version then
        { r with
            n_trials := p.n_trials
            n_wins := p.n_wins
            mean_brier := p.mean_brier
            active := p.active }
      else r)
  else s ++ [p]

/-- `INITIAL_PROMPTS` from `bot/learning/prompt_evolver.py`, as the
rows `seed_initial_prompts` upserts (trials/wins 0, no mean Brier,
active). -/
def INITIAL_PROMPTS : List PromptRow :=
  [⟨"v1-baseline", none, PROMPT_V1, 0, 0, none, 1⟩,
   ⟨"v2-cot", none, PROMPT_V2, 0, 0, none, 1⟩]

/-- `seed_initial_prompts` from `bot/learning/prompt_evolver.py`:
return unchanged when any ACTIVE prompt exists, else upsert the two
built-in templates. -/
def seed_initial_prompts (s : List PromptRow) : List PromptRow :=
  if get_active_prompts s ≠ [] then s
  else INITIAL_PROMPTS.foldl (fun st p => upsert_prompt_experiment st p) s

/-! ## Claim C9: idempotence of prompt seeding -/

/-- C9 counterexample: a NON-EMPTY prompts table whose only row is
inactive.  `seed_initial_prompts` sees no active prompts and re-seeds:
it reactivates the `v1-baseline` row and inserts `v2-cot`, so the table
changes.  "Non-empty table implies no-op" is false; the guard is on
ACTIVE rows. -/
theorem C9_seed_counterexample :
    ([(⟨"v1-baseline", none, "t", 5, 2, some (1/4), 0⟩ : PromptRow)] ≠
      ([] : List PromptRow)) ∧
    seed_initial_prompts
        [⟨"v1-baseline", none, "t", 5, 2, some (1/4), 0⟩] ≠
      [⟨"v1-baseline", none, "t", 5, 2, some (1/4), 0⟩] := by
  constructor
  · simp
  · have hlen : (seed_initial_prompts
        [⟨"v1-baseline", none, "t", 5, 2, some (1/4), 0⟩]).length = 2 := by
      simp [seed_initial_prompts, get_active_prompts, INITIAL_PROMPTS,
        upsert_prompt_experiment]
    intro h
    rw [h] at hlen
    simp at hlen

/-- Every upsert leaves a row carrying the upserted key and `active`
flag in the table. -/
theorem upsert_prompt_mem (s : List PromptRow) (p : PromptRow) :
    ∃ r ∈ upsert_prompt_experiment s p,
      r.prompt_version = p.prompt_version ∧ r.active = p.active := by
  unfold upsert_prompt_experiment
  split_ifs with hany
  · obtain ⟨r0, hr0, hpv⟩ := List.any_eq_true.mp hany
    have hpv' : r0.prompt_version = p.prompt_version := by simpa using hpv
    refine ⟨{ r0 with
        n_trials := p.n_trials
        n_wins := p.n_wins
        mean_brier := p.mean_brier
        active := p.active }, ?_, by simpa using hpv, rfl⟩
    refine List.mem_map.mpr ⟨r0, hr0, ?_⟩
    simp [hpv']
  · exact ⟨p, by simp, rfl, rfl⟩

/-- An upsert with a different key leaves a row untouched and in the
table. -/
theorem upsert_prompt_mem_other (s : List PromptRow) (p r : PromptRow)
    (hr : r ∈ s) (hne : r.prompt_version ≠ p.prompt_version) :
    r ∈ upsert_prompt_experiment s p := by
  unfold upsert_prompt_experiment
  split_ifs with hany
  · refine List.mem_map.mpr ⟨r, hr, ?_⟩
    simp [hne]
  · exact List.mem_append_left _ hr

/-- C9 (amended): seeding is a no-op exactly on stores that already
hold at least one ACTIVE prompt row (not on every non-empty store);
consequently running the seed twice always equals running it once. -/
theorem C9_seed_noop_on_active_and_idempotent :
    (∀ s : List PromptRow, get_active_prompts s ≠ [] →
      seed_initial_prompts s = s) ∧
    (∀ s : List PromptRow,
      seed_initial_prompts (seed_initial_prompts s) =
        seed_initial_prompts s) := by
  have hnoop : ∀ s : List PromptRow, get_active_prompts s ≠ [] →
      seed_initial_prompts s = s := by
    intro s h
    unfold seed_initial_prompts
    rw [if_pos h]
  refine ⟨hnoop, ?_⟩
  intro s
  by_cases hact : get_active_prompts s ≠ []
  · rw [hnoop s hact]
    exact hnoop s hact
  · have hseed : seed_initial_prompts s =
        INITIAL_PROMPTS.foldl (fun st p => upsert_prompt_experiment st p)
          s := by
      unfold seed_initial_prompts
      rw [if_neg hact]
    obtain ⟨r1, hr1, hpv1, hact1⟩ := upsert_prompt_mem s
      ⟨"v1-baseline", none, PROMPT_V1, 0, 0, none, 1⟩
    have hr1' : r1 ∈ INITIAL_PROMPTS.foldl
        (fun st p => upsert_prompt_experiment st p) s := by
      simp only [INITIAL_PROMPTS, List.foldl_cons, List.foldl_nil]
      exact upsert_prompt_mem_other _ _ r1 hr1 (by rw [hpv1]; simp)
    apply hnoop
    rw [hseed]
    intro hempty
    have : r1 ∈ get_active_prompts (INITIAL_PROMPTS.foldl
        (fun st p => upsert_prompt_experiment st p) s) := by
      unfold get_active_prompts
      exact List.mem_filter.mpr ⟨hr1', by simp [hact1]⟩
    rw [hempty] at this
    exact absurd this (List.not_mem_nil r1)

/-- Witness for C9: a store holding one active row is untouched, and
re-seeding the empty store a second time is a no-op. -/
theorem C9_seed_noop_witness :
    seed_initial_prompts [⟨"v1-baseline", none, "t", 0, 0, none, 1⟩] =
      [⟨"v1-baseline", none, "t", 0, 0, none, 1⟩] ∧
    seed_initial_prompts (seed_initial_prompts []) =
      seed_initial_prompts [] :=
  ⟨C9_seed_noop_on_active_and_idempotent.1
      [⟨"v1-baseline", none, "t", 0, 0, none, 1⟩]
      (by simp [get_active_prompts]),
    C9_seed_noop_on_active_and_idempotent.2 []⟩

/-! ## Probability extraction, from `bot/intelligence/forecaster.py`

`_extract_probability` first looks for a brace-delimited JSON block
(regex `\x7b[^\x7d]+\x7d`), decodes it and reads the first key among
`probability`, `prob`, `p` (dividing by 100 when the value exceeds 1,
with NO clamp); on any failure it falls back to four plain-text
patterns whose results ARE clamped to [0.01, 0.99]. -/

/-- Python's `\s` class over the common whitespace characters. -/
def is_space_char (c : Char) : Bool :=
  c = ' ' ∨ c = '\t' ∨ c = '\n' ∨ c = '\x0d' ∨ c = '\x0c' ∨ c = '\x0b'

def is_digit_char (c : Char) : Bool := '0' ≤ c ∧ c ≤ '9'

/-- Decimal value of a digit character. -/
def digit_val (c : Char) : ℕ :=
  if c = '0' then 0 else if c = '1' then 1 else if c = '2' then 2
  else if c = '3' then 3 else if c = '4' then 4 else if c = '5' then 5
  else if c = '6' then 6 else if c = '7' then 7 else if c = '8' then 8
  else if c = '9' then 9 else 0

def digits_to_nat (ds : List Char) : ℕ :=
  ds.foldl (fun n c => 10 * n + digit_val c) 0

/-- Value of a fractional digit string (the part after a decimal
point). -/
def frac_value (ds : List Char) : ℚ :=
  (digits_to_nat ds : ℚ) / ((10 : ℚ) ^ ds.length)

def skip_ws (cs : List Char) : List Char := cs.dropWhile is_space_char

/-- `re.search(r'\x7b[^\x7d]+\x7d', text, re.DOTALL)`: the leftmost
brace block with at least one character between the braces. -/
def find_json_block : List Char → Option (List Char)
  | [] => none
  | c :: rest =>
    if c = '\x7b' then
      let body := rest.takeWhile (fun d => d ≠ '\x7d')
      if body ≠ [] ∧ rest.drop body.length ≠ [] then
        some (c :: (body ++ ['\x7d']))
      else find_json_block rest
    else find_json_block rest

/-- A decoded JSON value of the flat subset (see
`json_loads_object`). -/
inductive JsonVal where
  | num (q : ℚ)
  | str (s : List Char)
  | jbool (b : Bool)
  | null
  deriving DecidableEq, Repr

/-- A JSON string literal without escape sequences: `"..."`. -/
def parse_json_string : List Char → Option (List Char × List Char)
  | '"' :: rest =>
    let body := rest.takeWhile (fun c => c ≠ '"' ∧ c ≠ '\\')
    (match rest.drop body.length with
     | '"' :: rem => some (body, rem)
     | _ => none)
  | _ => none

/-- A JSON number: optional minus, integer digits, optional fraction
(exponents are outside the modelled subset). -/
def parse_json_number (cs : List Char) : Option (ℚ × List Char) :=
  let neg := cs.head? = some '-'
  let cs1 := if neg then cs.drop 1 else cs
  let intds := cs1.takeWhile is_digit_char
  if intds = [] then none
  else
    let rest1 := cs1.drop intds.length
    match rest1 with
    | '.' :: t =>
      let fds := t.takeWhile is_digit_char
      if fds = [] then none
      else
        let v : ℚ := (digits_to_nat intds : ℚ) + frac_value fds
        some ((if neg then -v else v), t.drop fds.length)
    | _ =>
      let v : ℚ := (digits_to_nat intds : ℚ)
      some ((if neg then -v else v), rest1)

/-- A JSON scalar value: string, `true`/`false`/`null`, or number. -/
def parse_json_value (cs : List Char) : Option (JsonVal × List Char) :=
  match parse_json_string cs with
  | some (s, rest) => some (.str s, rest)
  | none =>
    if cs.take 4 = ['t', 'r', 'u', 'e'] then some (.jbool true, cs.drop 4)
    else if cs.take 5 = ['f', 'a', 'l', 's', 'e'] then
      some (.jbool false, cs.drop 5)
    else if cs.take 4 = ['n', 'u', 'l', 'l'] then some (.null, cs.drop 4)
    else
      match parse_json_number cs with
      | some (q, rest) => some (.num q, rest)
      | none => none

/-- The member loop of the object parser.  The first argument is a
structural-recursion guard (each member consumes at least one
character); it is called with the remaining input itself. -/
def parse_json_members : List Char → List Char →
    List (List Char × JsonVal) → Option (List (List Char × JsonVal))
  | [], _, _ => none
  | _ :: gas, cs, acc =>
    (match parse_json_string (skip_ws cs) with
     | none => none
     | some (key, rest) =>
       (match skip_ws rest with
        | ':' :: rest2 =>
          (match parse_json_value (skip_ws rest2) with
           | none => none
           | some (v, rest3) =>
             (match skip_ws rest3 with
              | ',' :: rest5 =>
                parse_json_members gas rest5 (acc ++ [(key, v)])
              | '\x7d' :: rest6 =>
                if skip_ws rest6 = [] then some (acc ++ [(key, v)])
                else none
              | _ => none))
        | _ => none))

/-- Model of Python `json.loads` restricted to what the regex block can
contain: one flat object of escape-free string keys and scalar values
(numbers without exponents, strings, booleans, null).  Every input
outside the subset yields `none`, which `_extract_probability` treats
exactly like `json.JSONDecodeError` — fall through to the plain-text
patterns. -/
def json_loads_object (cs : List Char) :
    Option (List (List Char × JsonVal)) :=
  match skip_ws cs with
  | '\x7b' :: rest =>
    (match skip_ws rest with
     | '\x7d' :: rem => if skip_ws rem = [] then some [] else none
     | _ => parse_json_members rest rest [])
  | _ => none

/-- `data[key]` with JSON's last-duplicate-wins semantics. -/
def obj_get (obj : List (List Char × JsonVal)) (k : List Char) :
    Option JsonVal :=
  match obj.reverse.find? (fun p => p.1 = k) with
  | some p => some p.2
  | none => none

/-- Python `float(x)` on a decoded JSON value: numbers pass through,
booleans give 0/1, strings are parsed as an optionally signed decimal
with surrounding whitespace; `null` (a `TypeError`) and unparseable
strings (a `ValueError`) give `none`. -/
def py_float (v : JsonVal) : Option ℚ :=
  match v with
  | .num q => some q
  | .jbool b => some (if b then 1 else 0)
  | .null => none
  | .str s =>
    (match parse_json_number (skip_ws s) with
     | some (q, rest) => if skip_ws rest = [] then some q else none
     | none => none)

/-- `val / 100.0 if val > 1 else val` — the JSON branch's
normalisation, with no clamp. -/
def json_normalise (val : ℚ) : ℚ := if 1 < val then val / 100 else val

/-- The JSON branch of `_extract_probability`: locate the brace block,
decode it, read the first present key among `probability`, `prob`,
`p`, convert with `float`, normalise.  Any failure (no block, decode
error, `float` error) is `none` — the Python `except ...: pass`. -/
def extract_probability_json (text : List Char) : Option ℚ :=
  match find_json_block text with
  | none => none
  | some block =>
    (match json_loads_object block with
     | none => none
     | some data =>
       (match obj_get data ("probability".toList) with
        | some v => (py_float v).map json_normalise
        | none =>
          (match obj_get data ("prob".toList) with
           | some v => (py_float v).map json_normalise
           | none =>
             (match obj_get data ("p".toList) with
              | some v => (py_float v).map json_normalise
              | none => none))))

/-- Case-insensitive literal match (re.IGNORECASE); returns the rest on
success. -/
def match_lit_ci : List Char → List Char → Option (List Char)
  | [], cs => some cs
  | _ :: _, [] => none
  | l :: ls, c :: cs =>
    if c.toLower = l.toLower then match_lit_ci ls cs else none

/-- Greedy digit run (`\d+`): at least one digit, with the rest. -/
def lex_digits (cs : List Char) : Option (List Char × List Char) :=
  let ds := cs.takeWhile is_digit_char
  if ds = [] then none else some (ds, cs.drop ds.length)

/-- The candidates for `(\d+(?:\.\d+)?)` at a position, in regex
backtracking order: greedy with the fraction, then without it.
Shortening a digit run can never help the following literal (`%` or
end) match, because the dropped character is itself a digit, so these
two candidates are exhaustive for the four patterns below. -/
def number_candidates (cs : List Char) :
    List (List Char × List Char) :=
  match lex_digits cs with
  | none => []
  | some (ds, rest) =>
    (match rest with
     | '.' :: t =>
       (match lex_digits t with
        | some (fs, rest2) => [(ds ++ '.' :: fs, rest2), (ds, rest)]
        | none => [(ds, rest)])
     | _ => [(ds, rest)])

/-- `[:\s]+` — one or more colons/whitespace. -/
def sep_chars (cs : List Char) : Option (List Char) :=
  let seps := cs.takeWhile (fun c => c = ':' ∨ is_space_char c)
  if seps = [] then none else some (cs.drop seps.length)

/-- Pattern `probability[:\s]+(\d+(?:\.\d+)?)%` at one position.
Returns (group 1, whether group 0 contains a percent sign). -/
def p1_at (cs : List Char) : Option (List Char × Bool) :=
  match match_lit_ci ("probability".toList) cs with
  | none => none
  | some r1 =>
    (match sep_chars r1 with
     | none => none
     | some r2 =>
       ((number_candidates r2).find? (fun cand =>
         cand.2.head? = some '%')).map (fun cand => (cand.1, true)))

/-- Pattern `(\d+(?:\.\d+)?)\s*%` at one position. -/
def p2_at (cs : List Char) : Option (List Char × Bool) :=
  ((number_candidates cs).find? (fun cand =>
    (cand.2.dropWhile is_space_char).head? = some '%')).map
    (fun cand => (cand.1, true))

/-- Pattern `0\.(\d+)` at one position: group 1 is only the fractional
digits. -/
def p3_at (cs : List Char) : Option (List Char × Bool) :=
  match cs with
  | '0' :: '.' :: t =>
    (match lex_digits t with
     | some (ds, _) => some (ds, false)
     | none => none)
  | _ => none

/-- Pattern `"probability"\s*:\s*(\d+(?:\.\d+)?)` at one position. -/
def p4_at (cs : List Char) : Option (List Char × Bool) :=
  match match_lit_ci ("\"probability\"".toList) cs with
  | none => none
  | some r1 =>
    (match r1.dropWhile is_space_char with
     | ':' :: r3 =>
       (match (number_candidates (r3.dropWhile is_space_char)).head? with
        | some cand => some (cand.1, false)
        | none => none)
     | _ => none)

/-- `re.search`: try the pattern at each position, leftmost match
wins. -/
def search_pat (p : List Char → Option (List Char × Bool)) :
    List Char → Option (List Char × Bool)
  | [] => none
  | c :: rest =>
    (match p (c :: rest) with
     | some r => some r
     | none => search_pat p rest)

/-- `float(m.group(1))` for a matched number group; a parse failure is
Python's `ValueError` (skip to the next pattern). -/
def group_float (g : List Char) : Option ℚ :=
  match parse_json_number g with
  | some (q, rest) => if rest = [] then some q else none
  | none => none

/-- `max(0.01, min(0.99, val))`. -/
def clamp_prob (val : ℚ) : ℚ := max (1/100) (min (99/100) val)

/-- Post-processing of a pattern match: divide by 100 when group 0 has
a percent sign or the value exceeds 1, then clamp. -/
def pattern_result (g : List Char) (has_pct : Bool) : Option ℚ :=
  (group_float g).map (fun val =>
    clamp_prob (if has_pct ∨ 1 < val then val / 100 else val))

def try_pattern (p : List Char → Option (List Char × Bool))
    (text : List Char) : Option ℚ :=
  match search_pat p text with
  | some (g, hp) => pattern_result g hp
  | none => none

/-- The plain-text fallback loop of `_extract_probability`: the four
patterns in source order, first success wins. -/
def extract_probability_patterns (text : List Char) : Option ℚ :=
  match try_pattern p1_at text with
  | some v => some v
  | none =>
    (match try_pattern p2_at text with
     | some v => some v
     | none =>
       (match try_pattern p3_at text with
        | some v => some v
        | none => try_pattern p4_at text))

/-- `_extract_probability` from `bot/intelligence/forecaster.py`. -/
def extract_probability (text : String) : Option ℚ :=
  match extract_probability_json text.toList with
  | some v => some v
  | none => extract_probability_patterns text.toList

/-- `prob or 0.5` in the `_call_*` providers: Python `or` replaces a
falsy value (None, or 0.0) by the default 0.5. -/
def py_or_default_half (p : Option ℚ) : ℚ :=
  match p with
  | some v => if v = 0 then 1/2 else v
  | none => 1/2

/-! ## Claim C6: parser range -/

/-- The failing LLM response text for C6: a JSON block carrying a
negative probability. -/
def c6text : String := "\x7b\"probability\": -0.5\x7d"

/-- C6 (code bug): on the response `\x7b"probability": -0.5\x7d` the
JSON branch of the parser returns −0.5 — it divides by 100 only when
the value exceeds 1 and never clamps, unlike the plain-text branch —
and `prob or 0.5` keeps the truthy −0.5, so the Forecast row would
store `raw_probability = −0.5 ∉ [0, 1]`. -/
theorem C6_parser_returns_out_of_range :
    extract_probability c6text = some (-(1/2)) ∧
    py_or_default_half (extract_probability c6text) = -(1/2) ∧
    ¬ ((0:ℚ) ≤ -(1/2)) := by
  have h : extract_probability c6text = some (-(1/2)) := by
    simp [c6text, extract_probability, extract_probability_json,
      find_json_block, json_loads_object, parse_json_members,
      parse_json_string, parse_json_value, parse_json_number,
      skip_ws, is_space_char, is_digit_char, digit_val, digits_to_nat,
      frac_value, obj_get, py_float, json_normalise]
    norm_num
  refine ⟨h, ?_, by norm_num⟩
  rw [h]
  norm_num [py_or_default_half]

end Quant
